import Mathlib

/-!
Shallow embedding of the credential and session core of the Guard_ repository
(`services/jwt_service.py`, `services/auth_service.py`, `routes/auth_routes.py`,
`routes/super_admin_routes.py`), together with theorems settling the frozen
claims about it.

Modelling conventions:
* Python strings become Lean `String` / `List Char`; UTF-8 encoding is
  modelled explicitly (`utf8Encode`) because the 72-byte bcrypt limit in
  `jwt_service.py` operates on bytes.
* The bcrypt primitive (`bcrypt.hashpw` / `bcrypt.checkpw`, also the backend
  behind passlib's `CryptContext(schemes=["bcrypt"], bcrypt__truncate_error=False)`)
  is modelled as an ideal collision-free keyed hash: a hash value records the
  salt and the (at most 72) input bytes actually hashed, and `checkpw` succeeds
  exactly when the candidate's truncated bytes coincide with the recorded ones.
  bcrypt itself only ever consumes the first 72 bytes of its input, and
  passlib with `truncate_error=False` silently truncates both on hash and on
  verify; both facts are reflected in the primitive.
* SHA-256 (used for OTP hashing) is an opaque parameter `h : String → String`;
  the OTP logic only ever compares hashes for equality.
* Exceptions become `Except` values; a Python function that catches all
  exceptions and returns a value becomes a total Lean function.
* MongoDB collections become lists of records; `find_one` is `List.find?`
  (first match in collection order), `update_one` / `delete_one` act on the
  first match, `delete_many` filters.
-/

namespace Guard

/-! ## UTF-8 byte model -/

/-- Number of bytes in the UTF-8 encoding of a character. -/
def utf8Len (c : Char) : Nat :=
  if c.toNat < 0x80 then 1
  else if c.toNat < 0x800 then 2
  else if c.toNat < 0x10000 then 3
  else 4

/-- UTF-8 encoding of a single character, as byte values. -/
def utf8EncChar (c : Char) : List Nat :=
  let n := c.toNat
  if n < 0x80 then [n]
  else if n < 0x800 then [0xC0 + n / 64, 0x80 + n % 64]
  else if n < 0x10000 then
    [0xE0 + n / 4096, 0x80 + (n / 64) % 64, 0x80 + n % 64]
  else
    [0xF0 + n / 262144, 0x80 + (n / 4096) % 64, 0x80 + (n / 64) % 64, 0x80 + n % 64]

/-- `password.encode('utf-8')`: a Python `str` modelled as `List Char`. -/
def utf8Encode (s : List Char) : List Nat :=
  s.flatMap utf8EncChar

/-- Byte length of the UTF-8 encoding (`len(password.encode('utf-8'))`). -/
def utf8ByteLen (s : List Char) : Nat :=
  (utf8Encode s).length

/-- The longest whole-character prefix of `s` whose UTF-8 encoding fits in
`budget` bytes.  For a valid UTF-8 string this is exactly
`s.encode('utf-8')[:budget].decode('utf-8', errors='ignore')`: truncating the
byte string mid-character leaves a trailing invalid sequence which
`errors='ignore'` drops. -/
def utf8TakeBytes (budget : Nat) : List Char → List Char
  | [] => []
  | c :: cs =>
    if utf8Len c ≤ budget then c :: utf8TakeBytes (budget - utf8Len c) cs
    else []

/-! ## bcrypt primitive (ideal model) -/

/-- A well-formed bcrypt hash: the salt together with the (≤ 72) bytes the
primitive actually digested.  An ideal collision-free digest is modelled by
recording those bytes themselves. -/
structure BcryptHash where
  salt : Nat
  stored : List Nat
  deriving DecidableEq, Repr

/-- `bcrypt.hashpw(password_bytes, salt)`: bcrypt consumes at most the first
72 bytes of its input. -/
def bcrypt_hashpw (passwordBytes : List Nat) (salt : Nat) : BcryptHash :=
  ⟨salt, passwordBytes.take 72⟩

/-- `bcrypt.checkpw(password_bytes, hash_bytes)` on a well-formed hash:
re-digest the first 72 candidate bytes under the recorded salt and compare. -/
def bcrypt_checkpw (passwordBytes : List Nat) (h : BcryptHash) : Bool :=
  passwordBytes.take 72 == h.stored

/-- A password-hash string as stored in the database: either a well-formed
bcrypt-family hash or arbitrary malformed text (on which both passlib and raw
bcrypt raise). -/
inductive HashStr where
  | wellFormed (h : BcryptHash)
  | malformed (s : String)
  deriving DecidableEq, Repr

/-! ## JWTService.hash_password / verify_password (jwt_service.py 117-199) -/

/-- `JWTService._hash_with_raw_bcrypt` (jwt_service.py 141-158): truncate the
UTF-8 bytes to 72 and call `bcrypt.hashpw`. -/
def hash_with_raw_bcrypt (password : List Char) (salt : Nat) : HashStr :=
  .wellFormed (bcrypt_hashpw ((utf8Encode password).take 72) salt)

/-- `pwd_context.hash(processed_password)`: passlib's bcrypt handler with
`truncate_error=False` silently truncates its input bytes to 72 before
digesting. -/
def passlib_hash (password : List Char) (salt : Nat) : BcryptHash :=
  bcrypt_hashpw ((utf8Encode password).take 72) salt

/-- `JWTService.hash_password` (jwt_service.py 117-139).  `useRawBcrypt` is
the module flag `use_raw_bcrypt` (False unless the passlib import failed).
On the passlib path, a password longer than 72 UTF-8 bytes is first replaced
by `password.encode('utf-8')[:72].decode('utf-8', errors='ignore')`, i.e. its
longest whole-character prefix fitting in 72 bytes. -/
def hash_password (useRawBcrypt : Bool) (password : List Char) (salt : Nat) : HashStr :=
  if useRawBcrypt then
    hash_with_raw_bcrypt password salt
  else
    let processed_password :=
      if 72 < utf8ByteLen password then utf8TakeBytes 72 password else password
    .wellFormed (passlib_hash processed_password salt)

/-- `JWTService._verify_with_raw_bcrypt` (jwt_service.py 178-199): truncate
the candidate's UTF-8 bytes to 72 and call `bcrypt.checkpw`; any exception
(in particular a malformed hash string) yields `False`. -/
def verify_with_raw_bcrypt (plain_password : List Char) (hashed_password : HashStr) : Bool :=
  match hashed_password with
  | .wellFormed h => bcrypt_checkpw ((utf8Encode plain_password).take 72) h
  | .malformed _ => false

/-- `pwd_context.verify(plain_password, hashed_password)`: passlib raises on a
malformed hash (modelled as `.error ()`); on a well-formed hash it silently
truncates the candidate bytes to 72 (`truncate_error=False`) and compares. -/
def passlib_verify (plain_password : List Char) (hashed_password : HashStr) :
    Except Unit Bool :=
  match hashed_password with
  | .wellFormed h => .ok (bcrypt_checkpw ((utf8Encode plain_password).take 72) h)
  | .malformed _ => .error ()

/-- `JWTService.verify_password` (jwt_service.py 160-176): raw-bcrypt path if
the flag is set, otherwise passlib first with the raw-bcrypt helper as
fallback on any passlib exception; the outer handler turns any remaining
failure into `False`.  Total: it never propagates an exception. -/
def verify_password (useRawBcrypt : Bool) (plain_password : List Char)
    (hashed_password : HashStr) : Bool :=
  if useRawBcrypt then
    verify_with_raw_bcrypt plain_password hashed_password
  else
    match passlib_verify plain_password hashed_password with
    | .ok b => b
    | .error _ => verify_with_raw_bcrypt plain_password hashed_password

/-- `JWTService.verify_password` with the exception channel kept explicit:
every raise in the Python body is re-raised into the `Except` layer exactly
where the source has no handler.  The source wraps the whole body in
`try ... except: return False` and the raw helper likewise, so no error can
escape; `verify_passwordE` makes that arrangement visible so it can be proved. -/
def verify_passwordE (useRawBcrypt : Bool) (plain_password : List Char)
    (hashed_password : HashStr) : Except Unit Bool :=
  if useRawBcrypt then
    .ok (verify_with_raw_bcrypt plain_password hashed_password)
  else
    match passlib_verify plain_password hashed_password with
    | .ok b => .ok b
    | .error _ => .ok (verify_with_raw_bcrypt plain_password hashed_password)

/-! ## JWTService tokens (jwt_service.py 54-115) -/

/-- The decoded JWT payload.  `create_access_token` copies the caller's data
(user_id/email/phone/role) and adds `exp` and `type`; `create_refresh_token`
sets only user_id, `type` and `exp`.  Time is seconds since epoch. -/
structure Payload where
  user_id : Option String
  email : Option String
  phone : Option String
  role : Option String
  exp : Nat
  type : Option String
  deriving DecidableEq, Repr

/-- A presented token string: either a well-formed JWT signed with some key
(the payload survives signing) or undecodable garbage. -/
inductive TokenStr where
  | signed (payload : Payload) (key : String)
  | garbage (s : String)
  deriving DecidableEq, Repr

/-- Outcome of `jwt.decode(token, key, algorithms=[...])`: the payload, or an
`ExpiredSignatureError`, or an invalid-token error (bad signature /
undecodable). -/
inductive DecodeResult where
  | ok (payload : Payload)
  | expiredErr
  | invalidErr
  deriving DecidableEq, Repr

/-- `jwt.decode` semantics: signature checked against the server key, then the
`exp` claim checked against the current time. -/
def jwtDecode (token : TokenStr) (key : String) (now : Nat) : DecodeResult :=
  match token with
  | .garbage _ => .invalidErr
  | .signed payload k =>
    if k ≠ key then .invalidErr
    else if payload.exp ≤ now then .expiredErr
    else .ok payload

/-- `JWTService.create_access_token` (jwt_service.py 54-69): payload data plus
`exp = now + access_token_expire_minutes` and `type = "access"`. -/
def create_access_token (user_id email phone role : Option String)
    (key : String) (now expireMinutes : Nat) : TokenStr :=
  .signed ⟨user_id, email, phone, role, now + expireMinutes * 60, some "access"⟩ key

/-- `JWTService.create_refresh_token` (jwt_service.py 71-88): only `user_id`,
`type = "refresh"` and `exp = now + refresh_token_expire_days`. -/
def create_refresh_token (user_id : String) (key : String) (now expireDays : Nat) : TokenStr :=
  .signed ⟨some user_id, none, none, none, now + expireDays * 86400, some "refresh"⟩ key

/-- The handled paths of `JWTService.verify_token` (jwt_service.py 90-115):
decode, then reject a payload whose `type` claim differs from the expected
`token_type`; an expired token is caught and turned into `None`.  CAUTION:
this version also collapses the invalid-token arm to `none`, although in the
program that arm is an UNCAUGHT error path (see `verify_tokenE`).  It is used
to model the callers (`get_current_user`), where the collapse is a
failure-only abstraction: it can never produce a payload, hence never a
spurious success. -/
def verify_token (token : TokenStr) (key : String) (now : Nat)
    (token_type : String) : Option Payload :=
  match jwtDecode token key now with
  | .ok payload => if payload.type ≠ some token_type then none else some payload
  | .expiredErr => none
  | .invalidErr => none

/-- `JWTService.verify_token` (jwt_service.py 90-115) with the exception
channel explicit.  The module imports its backend as `import jwt`, i.e.
PyJWT: `jwt.decode` raises `ExpiredSignatureError` on an expired token and
`DecodeError` / `InvalidSignatureError` on an undecodable or badly-signed
one, and PyJWT defines no `JWTError` attribute.  The first handler
(`except jwt.ExpiredSignatureError`) therefore catches and returns `None`,
but on the invalid path evaluating the second handler's class expression
`jwt.JWTError` (line 113) itself raises `AttributeError`, which escapes to
the caller: modelled as `.error ()`. -/
def verify_tokenE (token : TokenStr) (key : String) (now : Nat)
    (token_type : String) : Except Unit (Option Payload) :=
  match jwtDecode token key now with
  | .ok payload => .ok (if payload.type ≠ some token_type then none else some payload)
  | .expiredErr => .ok none
  | .invalidErr => .error ()

/-! ## OTP challenges (super_admin_routes.py 560-713, jwt_service.py 205-211) -/

/-- One document of the `otp_tokens` collection as written by
`request_password_change_otp`. -/
structure OtpRecord where
  email : String
  otpHash : String
  purpose : String
  expiresAt : Nat
  attempts : Nat
  createdAt : Nat
  deriving DecidableEq, Repr

/-- `JWTService.verify_otp` (jwt_service.py 209-211): compare the SHA-256 of
the submitted code with the stored hash.  `h` is the opaque SHA-256. -/
def verify_otp (h : String → String) (plain_otp : String) (hashed_otp : String) : Bool :=
  h plain_otp == hashed_otp

/-- Outcome of the OTP-verification prefix of `change_super_admin_password`
(super_admin_routes.py 672-713). -/
inductive OtpVerifyResult where
  | noOtp
  | expired
  | attemptsExceeded
  | invalidOtp
  | ok
  deriving DecidableEq, Repr

/-- The OTP-verification step of `change_super_admin_password`
(super_admin_routes.py 672-713), acting on the single `otp_tokens` document
for the caller's (email, "PASSWORD_CHANGE") pair: no record → 400 not found;
`now > expiresAt` → delete, expired; `attempts >= 3` → delete, exceeded;
hash mismatch → increment `attempts`, keep the record, invalid; match →
delete, proceed.  Returns the outcome and the surviving record. -/
def change_password_otp_step (h : String → String) (store : Option OtpRecord)
    (now : Nat) (code : String) : OtpVerifyResult × Option OtpRecord :=
  match store with
  | none => (.noOtp, none)
  | some r =>
    if r.expiresAt < now then (.expired, none)
    else if 3 ≤ r.attempts then (.attemptsExceeded, none)
    else if ¬ verify_otp h code r.otpHash then
      (.invalidOtp, some { r with attempts := r.attempts + 1 })
    else (.ok, none)

/-- Outcome of `request_password_change_otp` (super_admin_routes.py 560-640). -/
inductive OtpIssueResult where
  | rateLimited
  | emailFailed
  | sent
  deriving DecidableEq, Repr

/-- Does the `otp_tokens` collection hold a challenge for (email,
"PASSWORD_CHANGE") created within the last minute?  This is the
`find_one({"email": ..., "purpose": "PASSWORD_CHANGE", "createdAt": {"$gte":
now - timedelta(minutes=1)}})` check at super_admin_routes.py 582-586. -/
def hasRecentOtp (store : List OtpRecord) (email : String) (now : Nat) : Bool :=
  store.any fun r =>
    r.email == email && r.purpose == "PASSWORD_CHANGE" && now - 60 ≤ r.createdAt

/-- `request_password_change_otp` (super_admin_routes.py 560-640): refuse with
429 when a challenge for (email, "PASSWORD_CHANGE") was created within the
last minute; otherwise `delete_many` every existing challenge for the pair,
insert the fresh one (hash of the code, 10-minute expiry, zero attempts), and
delete it again if the notification email fails. -/
def request_password_change_otp (h : String → String) (store : List OtpRecord)
    (email : String) (now : Nat) (otp : String) (emailSent : Bool) :
    OtpIssueResult × List OtpRecord :=
  if hasRecentOtp store email now then (.rateLimited, store)
  else
    let otp_data : OtpRecord :=
      ⟨email, h otp, "PASSWORD_CHANGE", now + 600, 0, now⟩
    let cleared := store.filter fun r =>
      ! (r.email == email && r.purpose == "PASSWORD_CHANGE")
    let inserted := cleared ++ [otp_data]
    if emailSent then (.sent, inserted)
    else
      (.emailFailed, eraseFirstOtp inserted email)
where
  /-- `delete_one({"email": ..., "purpose": "PASSWORD_CHANGE"})`: remove the
  first matching document. -/
  eraseFirstOtp : List OtpRecord → String → List OtpRecord
    | [], _ => []
    | r :: rs, email =>
      if r.email == email && r.purpose == "PASSWORD_CHANGE" then rs
      else r :: eraseFirstOtp rs email

/-! ## Account store and identity resolution (auth_routes.py 53-221) -/

/-- One account document.  `role` is the stored `role` field (present in the
users collection, absent elsewhere); `passwordHash` may be missing
(corrupted record); `lastLogin` is absent until the first login. -/
structure Account where
  id : String
  email : Option String
  phone : Option String
  name : String
  role : Option String
  passwordHash : Option HashStr
  isActive : Bool
  lastLogin : Option Nat
  deriving DecidableEq, Repr

/-- The three account partitions: `users` (ADMIN / SUPER_ADMIN),
`supervisors`, `guards`. -/
structure Store where
  users : List Account
  supervisors : List Account
  guards : List Account
  deriving DecidableEq, Repr

/-- `find_one({"$or": [{"email": username}, {"phone": username}]})`: the first
document of the collection whose email or phone equals the identifier. -/
def findByContact (coll : List Account) (username : String) : Option Account :=
  coll.find? fun a => a.email == some username || a.phone == some username

/-- The collection-search prefix of `login` (auth_routes.py 82-110): users
collection first (role from the stored field, defaulting to "ADMIN"), then
supervisors (role "SUPERVISOR"), then guards (role "GUARD"). -/
def resolveByContact (store : Store) (username : String) : Option (Account × String) :=
  match findByContact store.users username with
  | some user => some (user, user.role.getD "ADMIN")
  | none =>
    match findByContact store.supervisors username with
    | some user => some (user, "SUPERVISOR")
    | none =>
      match findByContact store.guards username with
      | some user => some (user, "GUARD")
      | none => none

/-- `update_one({"_id": id}, {"$set": {"lastLogin": now}})`: set `lastLogin`
on the first document with the given id, leaving every other document and
every other field untouched. -/
def updateLastLogin (coll : List Account) (id : String) (now : Nat) : List Account :=
  match coll with
  | [] => []
  | a :: rest =>
    if a.id == id then { a with lastLogin := some now } :: rest
    else a :: updateLastLogin rest id now

/-- An HTTP error as raised through `HTTPException(status_code, detail)`. -/
structure HttpError where
  status : Nat
  detail : String
  deriving DecidableEq, Repr

/-- The successful login response body (auth_routes.py 197-210). -/
structure LoginOk where
  access_token : TokenStr
  user_id : String
  user_role : String
  user_lastLogin : Option Nat
  deriving DecidableEq, Repr

/-- `login` (auth_routes.py 53-221).  Parameters beyond the request: the
store, the `use_raw_bcrypt` flag, the server signing key, the configured
access-token TTL and the current time.  Control flow follows the source:
resolve the identifier across the three partitions (401 on no match), 500 if
the record has no `passwordHash`, verify the password (401 on mismatch),
check `isActive` (401 "Account not activated..."), update `lastLogin` via a
role-keyed dict that lacks a "SUPER_ADMIN" key — that `KeyError` is swallowed
by the surrounding `except` and the store is left unchanged — and finally
issue the access token.  Returns the response together with the store as
mutated. -/
def login (store : Store) (useRawBcrypt : Bool) (key : String)
    (expireMinutes : Nat) (now : Nat) (username : String) (password : List Char) :
    Except HttpError (LoginOk × Store) :=
  match resolveByContact store username with
  | none => .error ⟨401, "Invalid email/phone or password"⟩
  | some (user, role) =>
    match user.passwordHash with
    | none => .error ⟨500, "User data corrupted - missing password"⟩
    | some password_hash =>
      if ¬ verify_password useRawBcrypt password password_hash then
        .error ⟨401, "Invalid email/phone or password"⟩
      else if ¬ user.isActive then
        .error ⟨401, "Account not activated. Please contact the administrator."⟩
      else
        -- the `{"ADMIN": ..., "SUPERVISOR": ..., "GUARD": ...}[role]` lookup
        let updated : Store × Option Nat :=
          if role == "ADMIN" then
            ({ store with users := updateLastLogin store.users user.id now }, some now)
          else if role == "SUPERVISOR" then
            ({ store with supervisors := updateLastLogin store.supervisors user.id now }, some now)
          else if role == "GUARD" then
            ({ store with guards := updateLastLogin store.guards user.id now }, some now)
          else
            -- KeyError swallowed: store untouched, response keeps the stored value
            (store, user.lastLogin)
        let access_token :=
          create_access_token (some user.id) user.email user.phone (some role)
            key now expireMinutes
        .ok (⟨access_token, user.id, role, updated.2⟩, updated.1)

/-! ## Authentication dependencies (auth_service.py 41-102, 131-147, 304-321) -/

/-- `get_current_user` (auth_service.py 41-102): 401 without a token, 401 on
a failed `verify_token(token, "access")`, 401 on a payload missing `user_id`
or `role`, partition chosen by the role claim (401 on an unknown role),
re-fetch of the live account by id (401 if gone), 401 if the re-fetched
account has `isActive` false, and finally the account with the token's role
claim written into its `role` field. -/
def get_current_user (store : Store) (key : String) (now : Nat)
    (token : Option TokenStr) : Except HttpError Account :=
  match token with
  | none => .error ⟨401, "Authentication required"⟩
  | some t =>
    match verify_token t key now "access" with
    | none => .error ⟨401, "Invalid or expired token"⟩
    | some payload =>
      match payload.user_id, payload.role with
      | some user_id, some role =>
        let coll? : Option (List Account) :=
          if role == "ADMIN" || role == "SUPER_ADMIN" then some store.users
          else if role == "SUPERVISOR" then some store.supervisors
          else if role == "GUARD" then some store.guards
          else none
        match coll? with
        | none => .error ⟨401, "Invalid user role"⟩
        | some coll =>
          match coll.find? (fun a => a.id == user_id) with
          | none => .error ⟨401, "User not found"⟩
          | some user =>
            if ¬ user.isActive then .error ⟨401, "Account is not active"⟩
            else .ok { user with role := some role }
      | _, _ => .error ⟨401, "Invalid token payload"⟩

/-- `require_roles(*allowed_roles)` applied to an already-resolved user
(auth_service.py 304-321): 403 unless the user's role is in the allowed
list. -/
def require_roles (allowed_roles : List String) (current_user : Account) :
    Except HttpError Account :=
  if ¬ allowed_roles.contains (current_user.role.getD "") then
    .error ⟨403, "Access denied"⟩
  else .ok current_user

/-- `get_current_admin` (auth_service.py 131-147): 403 unless the resolved
user's role is exactly "ADMIN". -/
def get_current_admin (current_user : Account) : Except HttpError Account :=
  if current_user.role ≠ some "ADMIN" then
    .error ⟨403, "Admin access required"⟩
  else .ok current_user

/-- The full protected-call pipeline: token validation and live-account
re-fetch (`get_current_user`), then the role gate. -/
def protectedCall (store : Store) (key : String) (now : Nat)
    (token : Option TokenStr) (allowed_roles : List String) :
    Except HttpError Account :=
  match get_current_user store key now token with
  | .error e => .error e
  | .ok user => require_roles allowed_roles user

/-! ## Derived notions used by the theorems -/

/-- The challenges stored for (email, "PASSWORD_CHANGE"). -/
def otpFor (store : List OtpRecord) (email : String) : List OtpRecord :=
  store.filter fun r => r.email == email && r.purpose == "PASSWORD_CHANGE"

/-- Flip `isActive` to false on a document when its id matches. -/
def deactivateOne (did : String) (a : Account) : Account :=
  if a.id == did then { a with isActive := false } else a

/-- Flip `isActive` to false on every document with the given id, in all
three partitions (the "deactivate an account mid-session" scenario). -/
def deactivateAccount (store : Store) (id : String) : Store :=
  ⟨store.users.map (deactivateOne id), store.supervisors.map (deactivateOne id),
   store.guards.map (deactivateOne id)⟩

/-- `b` is `a` with at most the `lastLogin` field changed. -/
def eqExceptLastLogin (a b : Account) : Prop :=
  ∃ ll, b = { a with lastLogin := ll }

/-! ## Theorems -/

lemma take72_take72 (l : List Nat) : (l.take 72).take 72 = l.take 72 := by
  simp [List.take_take]

lemma utf8EncChar_length (c : Char) : (utf8EncChar c).length = utf8Len c := by
  simp only [utf8EncChar, utf8Len]
  split <;> [skip; split] <;> [simp; skip; split] <;> simp

lemma utf8Encode_cons (c : Char) (cs : List Char) :
    utf8Encode (c :: cs) = utf8EncChar c ++ utf8Encode cs := by
  simp [utf8Encode]

lemma utf8TakeBytes_of_le (budget : Nat) (p : List Char)
    (h : utf8ByteLen p ≤ budget) : utf8TakeBytes budget p = p := by
  induction p generalizing budget with
  | nil => rfl
  | cons c cs ih =>
    have hlen : utf8Len c + utf8ByteLen cs ≤ budget := by
      simpa [utf8ByteLen, utf8Encode_cons, utf8EncChar_length] using h
    have hc : utf8Len c ≤ budget := le_trans (Nat.le_add_right _ _) hlen
    simp only [utf8TakeBytes, if_pos hc]
    rw [ih (budget - utf8Len c) (by omega)]

/-- C3 counterexample: with the default backend configuration
(`use_raw_bcrypt = False`, i.e. passlib initialized), the password made of 71
`'a'`s followed by `'€'` (74 UTF-8 bytes; byte 72 splits the `'€'`) does NOT
verify against its own hash: `hash_password` drops the split character
(71 hashed bytes) while passlib's verify keeps the raw 72-byte prefix. -/
theorem c3_counterexample :
    verify_password false (List.replicate 71 'a' ++ ['€'])
      (hash_password false (List.replicate 71 'a' ++ ['€']) 1) = false := by
  decide

/-- C3 (amended): `verify(p, hash(p))` succeeds for every password on the
raw-bcrypt fallback path, where hash and verify truncate identically to 72
bytes; on the default passlib path it succeeds whenever the 72-byte cut of
`p`'s UTF-8 encoding falls on a character boundary (in particular for every
password of at most 72 bytes and every ASCII password), and then the hash is
also verifiable by the 72-byte-truncated form of the password on both paths. -/
theorem c3_password_roundtrip (p : List Char) (salt : Nat) :
    verify_password true p (hash_password true p salt) = true
    ∧ (utf8Encode (utf8TakeBytes 72 p) = (utf8Encode p).take 72 →
        verify_password false p (hash_password false p salt) = true
        ∧ verify_password true (utf8TakeBytes 72 p) (hash_password true p salt) = true
        ∧ verify_password false (utf8TakeBytes 72 p) (hash_password false p salt) = true) := by
  constructor
  · simp [verify_password, hash_password, hash_with_raw_bcrypt, verify_with_raw_bcrypt,
      bcrypt_checkpw, bcrypt_hashpw, take72_take72]
  · intro hAlign
    by_cases hlen : 72 < utf8ByteLen p
    · refine ⟨?_, ?_, ?_⟩ <;>
        simp [verify_password, hash_password, hash_with_raw_bcrypt, verify_with_raw_bcrypt,
          passlib_verify, passlib_hash, bcrypt_checkpw, bcrypt_hashpw, hlen, hAlign,
          take72_take72]
    · have hself : utf8TakeBytes 72 p = p :=
        utf8TakeBytes_of_le 72 p (Nat.le_of_not_lt hlen)
      refine ⟨?_, ?_, ?_⟩ <;>
        simp [verify_password, hash_password, hash_with_raw_bcrypt, verify_with_raw_bcrypt,
          passlib_verify, passlib_hash, bcrypt_checkpw, bcrypt_hashpw, hlen, hself,
          take72_take72]

/-- Witness for `c3_password_roundtrip`: an 80-byte ASCII password meets the
alignment hypothesis and round-trips on the passlib path. -/
theorem c3_password_roundtrip_witness :
    utf8Encode (utf8TakeBytes 72 (List.replicate 80 'a'))
        = (utf8Encode (List.replicate 80 'a')).take 72
    ∧ verify_password false (List.replicate 80 'a')
        (hash_password false (List.replicate 80 'a') 2) = true :=
  ⟨by decide, ((c3_password_roundtrip (List.replicate 80 'a') 2).2 (by decide)).1⟩

/-- C8: password verification never propagates an exception — the explicit
exception-channel embedding `verify_passwordE` always returns `.ok` — and on
a malformed (non-bcrypt) stored hash, where both the passlib and the raw
bcrypt backends raise internally, the result is `false`. -/
theorem c8_verify_password_never_throws (u : Bool) (p : List Char) (h : HashStr) :
    verify_passwordE u p h = .ok (verify_password u p h)
    ∧ (∀ s, h = .malformed s → verify_password u p h = false) := by
  constructor
  · cases u <;> cases h <;>
      simp [verify_passwordE, verify_password, passlib_verify, verify_with_raw_bcrypt]
  · rintro s rfl
    cases u <;> simp [verify_password, passlib_verify, verify_with_raw_bcrypt]

/-- Witness for `c8_verify_password_never_throws` at a concrete malformed
hash string. -/
theorem c8_verify_password_never_throws_witness :
    verify_password false ['a'] (.malformed "not-a-bcrypt-hash") = false :=
  (c8_verify_password_never_throws false ['a'] (.malformed "not-a-bcrypt-hash")).2
    "not-a-bcrypt-hash" rfl

/-- C1 (code bug): the claim holds on the expired and type-mismatch arms —
both return `None`, and in particular a refresh token issued by
`create_refresh_token` and presented where an access token is expected is
rejected with `None` at any validation time — but NOT on the
signature-invalid arm: on an undecodable or badly-signed token the second
handler names `jwt.JWTError`, which PyJWT does not define, so an
`AttributeError` escapes to the caller instead of `None` being returned. -/
theorem c1_verify_token_code_bug (t : TokenStr) (key e uid : String)
    (now now2 expDays : Nat) :
    (∀ s, t = .garbage s → verify_tokenE t key now e = .error ())
    ∧ (∀ p k, t = .signed p k → k ≠ key → verify_tokenE t key now e = .error ())
    ∧ (∀ p k, t = .signed p k → k = key → p.exp ≤ now →
        verify_tokenE t key now e = .ok none)
    ∧ (∀ p k, t = .signed p k → k = key → ¬ p.exp ≤ now → p.type ≠ some e →
        verify_tokenE t key now e = .ok none)
    ∧ verify_tokenE (create_refresh_token uid key now expDays) key now2 "access"
        = .ok none := by
  refine ⟨?_, ?_, ?_, ?_, ?_⟩
  · rintro s rfl; rfl
  · rintro p k rfl hk; simp [verify_tokenE, jwtDecode, hk]
  · rintro p k rfl rfl hexp; simp [verify_tokenE, jwtDecode, hexp]
  · rintro p k rfl rfl hexp htype; simp [verify_tokenE, jwtDecode, hexp, htype]
  · by_cases hexp : now + expDays * 86400 ≤ now2
    · simp [verify_tokenE, jwtDecode, create_refresh_token, hexp]
    · simp [verify_tokenE, jwtDecode, create_refresh_token, hexp]

/-- Witness for `c1_verify_token_code_bug`: a concrete unexpired access
token signed with the wrong key makes validation raise instead of returning
`None`. -/
theorem c1_verify_token_code_bug_witness :
    verify_tokenE (.signed ⟨some "u1", none, none, none, 1000, some "access"⟩ "other")
      "k" 0 "access" = .error () :=
  (c1_verify_token_code_bug
      (.signed ⟨some "u1", none, none, none, 1000, some "access"⟩ "other")
      "k" "access" "u1" 0 0 0).2.1
    ⟨some "u1", none, none, none, 1000, some "access"⟩ "other" rfl (by decide)

/-- C2: the OTP-verification step of `change_super_admin_password` follows
the exact decision sequence: no challenge → not-found; expired (`now >
expiresAt`) → delete and report expired; `attempts ≥ 3` → delete and report
exceeded; hash mismatch → increment `attempts`, keep the challenge, report
invalid; hash match → delete the challenge and succeed, after which a second
verification with the same code finds no challenge (single use). -/
theorem c2_otp_verify_decision (h : String → String) (now : Nat) (code : String)
    (r : OtpRecord) :
    change_password_otp_step h none now code = (.noOtp, none)
    ∧ (r.expiresAt < now →
        change_password_otp_step h (some r) now code = (.expired, none))
    ∧ (¬ r.expiresAt < now → 3 ≤ r.attempts →
        change_password_otp_step h (some r) now code = (.attemptsExceeded, none))
    ∧ (¬ r.expiresAt < now → r.attempts < 3 → h code ≠ r.otpHash →
        change_password_otp_step h (some r) now code
          = (.invalidOtp, some { r with attempts := r.attempts + 1 }))
    ∧ (¬ r.expiresAt < now → r.attempts < 3 → h code = r.otpHash →
        change_password_otp_step h (some r) now code = (.ok, none)
        ∧ change_password_otp_step h
            (change_password_otp_step h (some r) now code).2 now code
          = (.noOtp, none)) := by
  refine ⟨rfl, ?_, ?_, ?_, ?_⟩
  · intro hexp; simp [change_password_otp_step, hexp]
  · intro hexp hatt; simp [change_password_otp_step, hexp, hatt]
  · intro hexp hatt hne
    simp [change_password_otp_step, verify_otp, hexp, Nat.not_le.mpr hatt, hne]
  · intro hexp hatt heq
    have hstep : change_password_otp_step h (some r) now code = (.ok, none) := by
      simp [change_password_otp_step, verify_otp, hexp, Nat.not_le.mpr hatt, heq]
    refine ⟨hstep, ?_⟩
    rw [hstep]
    rfl

/-- Witness for `c2_otp_verify_decision`: a live, unexhausted challenge with
the matching code is consumed. -/
theorem c2_otp_verify_decision_witness :
    change_password_otp_step (fun s => s)
      (some ⟨"e@x", "1234", "PASSWORD_CHANGE", 100, 0, 0⟩) 5 "1234" = (.ok, none) :=
  ((c2_otp_verify_decision (fun s => s) 5 "1234"
      ⟨"e@x", "1234", "PASSWORD_CHANGE", 100, 0, 0⟩).2.2.2.2
    (by decide) (by decide) rfl).1

lemma otpFor_cleared (store : List OtpRecord) (email : String) :
    otpFor (store.filter fun r =>
      ! (r.email == email && r.purpose == "PASSWORD_CHANGE")) email = [] := by
  induction store with
  | nil => rfl
  | cons a l ih =>
    by_cases hm : (a.email == email && a.purpose == "PASSWORD_CHANGE") = true
    · simp only [otpFor, List.filter, hm, Bool.not_true]
      exact ih
    · simp only [Bool.not_eq_true] at hm
      simp only [otpFor, List.filter, hm, Bool.not_false, if_true, hm]
      exact ih

lemma eraseFirstOtp_append (l : List OtpRecord) (email : String) (r0 : OtpRecord)
    (hl : ∀ r ∈ l, (r.email == email && r.purpose == "PASSWORD_CHANGE") = false)
    (hr : (r0.email == email && r0.purpose == "PASSWORD_CHANGE") = true) :
    request_password_change_otp.eraseFirstOtp (l ++ [r0]) email = l := by
  induction l with
  | nil => simp [request_password_change_otp.eraseFirstOtp, hr]
  | cons a l ih =>
    have ha := hl a (List.mem_cons_self a l)
    simp only [List.cons_append, request_password_change_otp.eraseFirstOtp, ha,
      Bool.false_eq_true, if_false]
    exact congrArg (a :: ·) (ih fun r hrr => hl r (List.mem_cons_of_mem a hrr))

lemma mem_cleared_false (store : List OtpRecord) (email : String) (r : OtpRecord)
    (hr : r ∈ store.filter fun r =>
      ! (r.email == email && r.purpose == "PASSWORD_CHANGE")) :
    (r.email == email && r.purpose == "PASSWORD_CHANGE") = false := by
  have h2 := (List.mem_filter.mp hr).2
  cases hb : (r.email == email && r.purpose == "PASSWORD_CHANGE")
  · rfl
  · rw [hb] at h2
    exact absurd h2 (by simp)

/-- C7: `request_password_change_otp` refuses with 429 exactly when a
challenge for (email, "PASSWORD_CHANGE") was created within the last minute
(leaving the store untouched); otherwise every pre-existing challenge for the
pair is deleted before the fresh one is inserted, so afterwards exactly the
fresh challenge lives for the pair (or none at all if the notification email
failed and the cleanup ran). -/
theorem c7_otp_issue_spec (h : String → String) (store : List OtpRecord)
    (email : String) (now : Nat) (otp : String) (emailSent : Bool) :
    ((request_password_change_otp h store email now otp emailSent).1 = .rateLimited
      ↔ hasRecentOtp store email now = true)
    ∧ (hasRecentOtp store email now = true →
        request_password_change_otp h store email now otp emailSent
          = (.rateLimited, store))
    ∧ (hasRecentOtp store email now = false → emailSent = true →
        otpFor (request_password_change_otp h store email now otp emailSent).2 email
          = [⟨email, h otp, "PASSWORD_CHANGE", now + 600, 0, now⟩])
    ∧ (hasRecentOtp store email now = false → emailSent = false →
        otpFor (request_password_change_otp h store email now otp emailSent).2 email
          = []) := by
  by_cases hrec : hasRecentOtp store email now = true
  · refine ⟨?_, fun _ => ?_, fun hf => absurd hrec (by simp [hf]), fun hf => absurd hrec (by simp [hf])⟩
    · simp [request_password_change_otp, hrec]
    · simp [request_password_change_otp, hrec]
  · have hrec' : hasRecentOtp store email now = false := by
      simpa using hrec
    refine ⟨?_, fun hc => absurd hc hrec, fun _ hsent => ?_, fun _ hfail => ?_⟩
    · cases emailSent <;> simp [request_password_change_otp, hrec']
    · subst hsent
      simp only [request_password_change_otp, hrec', Bool.false_eq_true, if_false, if_true]
      rw [show otpFor
          ((store.filter fun r => ! (r.email == email && r.purpose == "PASSWORD_CHANGE"))
            ++ [⟨email, h otp, "PASSWORD_CHANGE", now + 600, 0, now⟩]) email
          = otpFor (store.filter fun r =>
              ! (r.email == email && r.purpose == "PASSWORD_CHANGE")) email
            ++ otpFor [⟨email, h otp, "PASSWORD_CHANGE", now + 600, 0, now⟩] email
        from List.filter_append _ _]
      rw [otpFor_cleared]
      simp [otpFor]
    · subst hfail
      simp only [request_password_change_otp, hrec', Bool.false_eq_true, if_false]
      rw [eraseFirstOtp_append _ email _ (mem_cleared_false store email · ·) (by simp)]
      exact otpFor_cleared store email

/-- Witness for `c7_otp_issue_spec`: with only a stale challenge in the
store, issuance succeeds and leaves exactly the fresh challenge for the
pair. -/
theorem c7_otp_issue_spec_witness :
    otpFor (request_password_change_otp (fun s => s)
        [⟨"a@x", "old", "PASSWORD_CHANGE", 60, 1, 0⟩] "a@x" 120 "9999" true).2 "a@x"
      = [⟨"a@x", "9999", "PASSWORD_CHANGE", 720, 0, 120⟩] :=
  (c7_otp_issue_spec (fun s => s) [⟨"a@x", "old", "PASSWORD_CHANGE", 60, 1, 0⟩]
      "a@x" 120 "9999" true).2.2.1 (by decide) rfl

/-- C4: when the role is not known, `login`'s identifier resolution searches
the users (admin / super-admin) partition first, then supervisors, then
guards, matching the identifier against either email or phone, returning the
first match with the role taken from the winning partition — the stored
`role` field (default "ADMIN") for the users partition, the partition name
otherwise — so a contact present in two partitions resolves to the
higher-priority partition. -/
theorem c4_resolution_order (store : Store) (username : String) :
    (∀ a, findByContact store.users username = some a →
        resolveByContact store username = some (a, a.role.getD "ADMIN"))
    ∧ (findByContact store.users username = none →
        ∀ a, findByContact store.supervisors username = some a →
          resolveByContact store username = some (a, "SUPERVISOR"))
    ∧ (findByContact store.users username = none →
        findByContact store.supervisors username = none →
        ∀ a, findByContact store.guards username = some a →
          resolveByContact store username = some (a, "GUARD"))
    ∧ (findByContact store.users username = none →
        findByContact store.supervisors username = none →
        findByContact store.guards username = none →
        resolveByContact store username = none) := by
  refine ⟨?_, ?_, ?_, ?_⟩
  · intro a ha; simp [resolveByContact, ha]
  · intro h1 a ha; simp [resolveByContact, h1, ha]
  · intro h1 h2 a ha; simp [resolveByContact, h1, h2, ha]
  · intro h1 h2 h3; simp [resolveByContact, h1, h2, h3]

/-- Witness for `c4_resolution_order`: the same contact seeded in the users
and supervisors partitions resolves to the users-partition identity. -/
theorem c4_resolution_order_witness :
    resolveByContact
      ⟨[⟨"id1", some "x@y", none, "Alice", some "ADMIN", none, true, none⟩],
       [⟨"id2", some "x@y", none, "Bob", none, none, true, none⟩], []⟩ "x@y"
      = some (⟨"id1", some "x@y", none, "Alice", some "ADMIN", none, true, none⟩, "ADMIN") :=
  (c4_resolution_order
      ⟨[⟨"id1", some "x@y", none, "Alice", some "ADMIN", none, true, none⟩],
       [⟨"id2", some "x@y", none, "Bob", none, none, true, none⟩], []⟩ "x@y").1
    ⟨"id1", some "x@y", none, "Alice", some "ADMIN", none, true, none⟩ rfl

/-- C5: the role gate is exact membership in the explicit allowed set —
success iff the caller's role is in the set, a 403 Forbidden otherwise, with
no implicit hierarchy: a SUPER_ADMIN does not pass `get_current_admin`'s
{ADMIN} check, and the full protected-call pipeline with a valid, unexpired
SUPERVISOR token and allowed set {ADMIN} fails with 403. -/
theorem c5_role_gate (allowed : List String) (u : Account) (store : Store)
    (key : String) (now : Nat) (tok : Option TokenStr) :
    (require_roles allowed u = .ok u
      ↔ allowed.contains (u.role.getD "") = true)
    ∧ (require_roles allowed u = .error ⟨403, "Access denied"⟩
      ↔ allowed.contains (u.role.getD "") = false)
    ∧ (u.role = some "SUPER_ADMIN" →
        get_current_admin u = .error ⟨403, "Admin access required"⟩)
    ∧ (∀ v, get_current_user store key now tok = .ok v →
        v.role = some "SUPERVISOR" →
        protectedCall store key now tok ["ADMIN"] = .error ⟨403, "Access denied"⟩) := by
  refine ⟨?_, ?_, ?_, ?_⟩
  · by_cases hc : allowed.contains (u.role.getD "") = true <;> simp [require_roles, hc]
  · by_cases hc : allowed.contains (u.role.getD "") = true <;> simp [require_roles, hc]
  · intro hrole; simp [get_current_admin, hrole]
  · intro v hv hrole
    simp [protectedCall, hv, require_roles, hrole]

/-- Witness for `c5_role_gate`: a concrete valid, unexpired SUPERVISOR token
presented to a protected call requiring {ADMIN} yields 403. -/
theorem c5_role_gate_witness :
    protectedCall ⟨[], [⟨"s1", some "s@x", none, "Sam", none, none, true, none⟩], []⟩
      "k" 0 (some (.signed ⟨some "s1", some "s@x", none, some "SUPERVISOR",
        100, some "access"⟩ "k")) ["ADMIN"]
      = .error ⟨403, "Access denied"⟩ :=
  (c5_role_gate [] ⟨"s1", some "s@x", none, "Sam", none, none, true, none⟩
      ⟨[], [⟨"s1", some "s@x", none, "Sam", none, none, true, none⟩], []⟩
      "k" 0 (some (.signed ⟨some "s1", some "s@x", none, some "SUPERVISOR",
        100, some "access"⟩ "k"))).2.2.2
    ⟨"s1", some "s@x", none, "Sam", some "SUPERVISOR", none, true, none⟩ rfl rfl

lemma find?_map_deactivateOne (l : List Account) (did uid : String) :
    (l.map (deactivateOne did)).find? (fun a => a.id == uid)
      = (l.find? fun a => a.id == uid).map (deactivateOne did) := by
  rw [List.find?_map]
  have hcomp : ((fun a : Account => a.id == uid) ∘ deactivateOne did)
      = fun a : Account => a.id == uid := by
    funext a
    by_cases h : (a.id == did) = true <;> simp [Function.comp, deactivateOne, h]
  rw [hcomp]

lemma find?_deactivateOne_found (coll : List Account) (uid : String) (a0 : Account)
    (hfind : coll.find? (fun a => a.id == uid) = some a0) :
    (coll.map (deactivateOne a0.id)).find? (fun a => a.id == uid)
      = some { a0 with isActive := false } := by
  rw [find?_map_deactivateOne, hfind]
  simp [deactivateOne]

/-- C6: every protected call re-fetches the live account record and checks
its current `isActive` flag: a call that resolves to a user always sees
`isActive = true`, and after flipping the account's flag to false
(`deactivateAccount`), the very same still-valid, unexpired token is
rejected with 401 "Account is not active". -/
theorem c6_live_active_check (store : Store) (key : String) (now : Nat)
    (tok : Option TokenStr) :
    (∀ u, get_current_user store key now tok = .ok u → u.isActive = true)
    ∧ (∀ u, get_current_user store key now tok = .ok u →
        get_current_user (deactivateAccount store u.id) key now tok
          = .error ⟨401, "Account is not active"⟩) := by
  have main : ∀ u, get_current_user store key now tok = .ok u →
      u.isActive = true
      ∧ get_current_user (deactivateAccount store u.id) key now tok
          = .error ⟨401, "Account is not active"⟩ := by
    intro u hu
    cases tok with
    | none => simp [get_current_user] at hu
    | some t =>
      simp only [get_current_user, deactivateAccount] at hu ⊢
      cases hv : verify_token t key now "access" with
      | none => simp [hv] at hu
      | some payload =>
        cases huid : payload.user_id with
        | none => simp [hv, huid] at hu
        | some uid =>
          cases hrole : payload.role with
          | none => simp [hv, huid, hrole] at hu
          | some role =>
            by_cases h1 : role = "ADMIN" ∨ role = "SUPER_ADMIN"
            · cases hfind : List.find? (fun a => a.id == uid) store.users with
              | none => simp [hv, huid, hrole, h1, hfind] at hu
              | some a0 =>
                by_cases hact : a0.isActive = true
                · simp [hv, huid, hrole, h1, hfind, hact] at hu
                  subst hu
                  refine ⟨rfl, ?_⟩
                  simp [huid, hrole, h1,
                    find?_deactivateOne_found store.users uid a0 hfind]
                · simp [hv, huid, hrole, h1, hfind, hact] at hu
            · by_cases h2 : role = "SUPERVISOR"
              · cases hfind : List.find? (fun a => a.id == uid) store.supervisors with
                | none => simp [hv, huid, hrole, h1, h2, hfind] at hu
                | some a0 =>
                  by_cases hact : a0.isActive = true
                  · simp [hv, huid, hrole, h1, h2, hfind, hact] at hu
                    subst hu
                    refine ⟨rfl, ?_⟩
                    simp [huid, hrole, h1, h2,
                      find?_deactivateOne_found store.supervisors uid a0 hfind]
                  · simp [hv, huid, hrole, h1, h2, hfind, hact] at hu
              · by_cases h3 : role = "GUARD"
                · cases hfind : List.find? (fun a => a.id == uid) store.guards with
                  | none => simp [hv, huid, hrole, h1, h2, h3, hfind] at hu
                  | some a0 =>
                    by_cases hact : a0.isActive = true
                    · simp [hv, huid, hrole, h1, h2, h3, hfind, hact] at hu
                      subst hu
                      refine ⟨rfl, ?_⟩
                      simp [huid, hrole, h1, h2, h3,
                        find?_deactivateOne_found store.guards uid a0 hfind]
                    · simp [hv, huid, hrole, h1, h2, h3, hfind, hact] at hu
                · simp [hv, huid, hrole, h1, h2, h3] at hu
  exact ⟨fun u hu => (main u hu).1, fun u hu => (main u hu).2⟩

/-- Witness for `c6_live_active_check`: a concrete admin whose token is valid
and unexpired is rejected right after the account is deactivated. -/
theorem c6_live_active_check_witness :
    get_current_user
      (deactivateAccount ⟨[⟨"a1", some "a@x", none, "Ada", some "ADMIN",
        none, true, none⟩], [], []⟩ "a1") "k" 0
      (some (.signed ⟨some "a1", some "a@x", none, some "ADMIN",
        100, some "access"⟩ "k"))
      = .error ⟨401, "Account is not active"⟩ :=
  (c6_live_active_check ⟨[⟨"a1", some "a@x", none, "Ada", some "ADMIN",
        none, true, none⟩], [], []⟩ "k" 0
      (some (.signed ⟨some "a1", some "a@x", none, some "ADMIN",
        100, some "access"⟩ "k"))).2
    ⟨"a1", some "a@x", none, "Ada", some "ADMIN", none, true, none⟩ rfl

lemma eqExceptLastLogin_refl (a : Account) : eqExceptLastLogin a a :=
  ⟨a.lastLogin, rfl⟩

lemma forall2_eqExceptLastLogin_refl (l : List Account) :
    List.Forall₂ eqExceptLastLogin l l := by
  induction l with
  | nil => exact .nil
  | cons a rest ih => exact .cons (eqExceptLastLogin_refl a) ih

lemma updateLastLogin_frame (l : List Account) (id : String) (now : Nat) :
    List.Forall₂ eqExceptLastLogin l (updateLastLogin l id now) := by
  induction l with
  | nil => exact .nil
  | cons a rest ih =>
    by_cases h : (a.id == id) = true
    · simp only [updateLastLogin, h, if_true]
      exact .cons ⟨some now, rfl⟩ (forall2_eqExceptLastLogin_refl rest)
    · simp only [Bool.not_eq_true] at h
      simp only [updateLastLogin, h, Bool.false_eq_true, if_false]
      exact .cons (eqExceptLastLogin_refl a) ih

/-- C9: a successful login only ever changes `lastLogin` fields in the store
(every partition is pointwise equal except possibly that field), and when the
resolved role is "SUPER_ADMIN" — absent from the role-to-collection dict, so
the `KeyError` is swallowed — the store is returned completely unchanged,
`lastLogin` keeps its stored value in the response, and login still succeeds
with an access token. -/
theorem c9_login_frame (store : Store) (useRaw : Bool) (key : String)
    (em now : Nat) (username : String) (password : List Char) :
    (∀ res store',
        login store useRaw key em now username password = .ok (res, store') →
        List.Forall₂ eqExceptLastLogin store.users store'.users
        ∧ List.Forall₂ eqExceptLastLogin store.supervisors store'.supervisors
        ∧ List.Forall₂ eqExceptLastLogin store.guards store'.guards)
    ∧ (∀ user ph,
        resolveByContact store username = some (user, "SUPER_ADMIN") →
        user.passwordHash = some ph →
        verify_password useRaw password ph = true →
        user.isActive = true →
        login store useRaw key em now username password
          = .ok (⟨create_access_token (some user.id) user.email user.phone
                    (some "SUPER_ADMIN") key now em,
                  user.id, "SUPER_ADMIN", user.lastLogin⟩, store)) := by
  constructor
  · intro res store' h
    cases hres : resolveByContact store username with
    | none => simp [login, hres] at h
    | some ur =>
      obtain ⟨user, role⟩ := ur
      cases hph : user.passwordHash with
      | none => simp [login, hres, hph] at h
      | some ph =>
        by_cases hv : verify_password useRaw password ph = true
        · by_cases hac : user.isActive = true
          · by_cases hr1 : role = "ADMIN"
            · simp [login, hres, hph, hv, hac, hr1] at h
              obtain ⟨-, h2⟩ := h
              subst h2
              exact ⟨updateLastLogin_frame store.users user.id now,
                forall2_eqExceptLastLogin_refl _, forall2_eqExceptLastLogin_refl _⟩
            · by_cases hr2 : role = "SUPERVISOR"
              · simp [login, hres, hph, hv, hac, hr1, hr2] at h
                obtain ⟨-, h2⟩ := h
                subst h2
                exact ⟨forall2_eqExceptLastLogin_refl _,
                  updateLastLogin_frame store.supervisors user.id now,
                  forall2_eqExceptLastLogin_refl _⟩
              · by_cases hr3 : role = "GUARD"
                · simp [login, hres, hph, hv, hac, hr1, hr2, hr3] at h
                  obtain ⟨-, h2⟩ := h
                  subst h2
                  exact ⟨forall2_eqExceptLastLogin_refl _,
                    forall2_eqExceptLastLogin_refl _,
                    updateLastLogin_frame store.guards user.id now⟩
                · simp [login, hres, hph, hv, hac, hr1, hr2, hr3] at h
                  obtain ⟨-, h2⟩ := h
                  subst h2
                  exact ⟨forall2_eqExceptLastLogin_refl _,
                    forall2_eqExceptLastLogin_refl _, forall2_eqExceptLastLogin_refl _⟩
          · simp [login, hres, hph, hv, hac] at h
        · simp [login, hres, hph, hv] at h
  · intro user ph h1 h2 h3 h4
    simp [login, h1, h2, h3, h4]

/-- Witness for `c9_login_frame`: a concrete SUPER_ADMIN login succeeds with
a token while leaving the store byte-for-byte unchanged. -/
theorem c9_login_frame_witness :
    login ⟨[⟨"sa1", some "root@x", none, "Root", some "SUPER_ADMIN",
        some (hash_password false "pw".toList 3), true, none⟩], [], []⟩
      false "k" 30 100 "root@x" "pw".toList
      = .ok (⟨create_access_token (some "sa1") (some "root@x") none
              (some "SUPER_ADMIN") "k" 100 30,
            "sa1", "SUPER_ADMIN", none⟩,
          ⟨[⟨"sa1", some "root@x", none, "Root", some "SUPER_ADMIN",
            some (hash_password false "pw".toList 3), true, none⟩], [], []⟩) :=
  (c9_login_frame ⟨[⟨"sa1", some "root@x", none, "Root", some "SUPER_ADMIN",
        some (hash_password false "pw".toList 3), true, none⟩], [], []⟩
      false "k" 30 100 "root@x" "pw".toList).2
    ⟨"sa1", some "root@x", none, "Root", some "SUPER_ADMIN",
      some (hash_password false "pw".toList 3), true, none⟩
    (hash_password false "pw".toList 3) rfl rfl (by decide) rfl

/-- C10: login verifies the password before checking the active flag.  For an
inactive account the correct password yields the distinct "Account not
activated" message, while a wrong password yields the same generic
invalid-credentials message that an unknown identifier yields — so the
response reveals whether the submitted password was correct. -/
theorem c10_login_error_order (store : Store) (useRaw : Bool) (key : String)
    (em now : Nat) (username : String) (password : List Char) :
    (resolveByContact store username = none →
        login store useRaw key em now username password
          = .error ⟨401, "Invalid email/phone or password"⟩)
    ∧ (∀ user role ph,
        resolveByContact store username = some (user, role) →
        user.passwordHash = some ph →
        user.isActive = false →
        (verify_password useRaw password ph = true →
            login store useRaw key em now username password
              = .error ⟨401,
                  "Account not activated. Please contact the administrator."⟩)
        ∧ (verify_password useRaw password ph = false →
            login store useRaw key em now username password
              = .error ⟨401, "Invalid email/phone or password"⟩)) := by
  constructor
  · intro h
    simp [login, h]
  · intro user role ph hres hph hact
    constructor
    · intro hv
      simp [login, hres, hph, hv, hact]
    · intro hv
      simp [login, hres, hph, hv]

/-- Witness for `c10_login_error_order`: a concrete inactive guard account
with the correct password gets the "Account not activated" message. -/
theorem c10_login_error_order_witness :
    login ⟨[], [], [⟨"g1", some "g@x", none, "Gia", none,
        some (hash_password true ['p', 'w'] 4), false, none⟩]⟩
      true "k" 30 0 "g@x" ['p', 'w']
      = .error ⟨401, "Account not activated. Please contact the administrator."⟩ :=
  ((c10_login_error_order ⟨[], [], [⟨"g1", some "g@x", none, "Gia", none,
        some (hash_password true ['p', 'w'] 4), false, none⟩]⟩
      true "k" 30 0 "g@x" ['p', 'w']).2
    ⟨"g1", some "g@x", none, "Gia", none,
      some (hash_password true ['p', 'w'] 4), false, none⟩
    "GUARD" (hash_password true ['p', 'w'] 4) rfl rfl rfl).1 (by decide)
